import Mathlib

/-! # SPI flash interface (`include/spi_flash.h`)

A shallow embedding of the protocol encoding macros, the `struct spi_flash`
descriptor and the inline facade functions of the header, followed by the
properties proved about them.

Conventions of the embedding:

* `u32` values are natural numbers; where the C arithmetic can leave the
  32-bit range (the left shifts of `SPI_FLASH_PROTO_*_TO_PROTO`, the `(u32)`
  casts of `SPI_FLASH_PROTO_*_FROM_PROTO`) the result is reduced `% 2 ^ 32`.
* Pointers are natural numbers (`Ptr`).  A function pointer field of the
  descriptor is an `Option`: `none` is the null pointer.
* Code that is called through a pointer, or declared in the header and
  defined elsewhere, can do anything to the machine; it is a function of an
  abstract machine state `σ` returning a status and the next state.
* A function that calls through a function pointer returns
  `Option (Int × σ)`: `none` stands for a call through a null pointer
  (undefined behaviour in C), `some (r, t)` for the returned status `r` and
  the machine state `t` after the call.
-/

namespace SpiFlash

/-! ## Protocol encoding -/

/-- Modelled from the spec: `GENMASK` is defined in the bit-operations header,
which is not part of the sources at hand.  The data model places the command
lanes in bits [11:8], the address lanes in bits [7:4] and the data lanes in
bits [3:0], so `GENMASK h l` is the contiguous mask with bits `l` through `h`
(inclusive) set. -/
def GENMASK (h l : Nat) : Nat := 2 ^ (h + 1) - 2 ^ l

def SPI_FLASH_PROTO_CMD_OFF : Nat := 8
def SPI_FLASH_PROTO_CMD_MASK : Nat := GENMASK 11 8

/-- The macro `(((cmd) << SPI_FLASH_PROTO_CMD_OFF) & SPI_FLASH_PROTO_CMD_MASK)`, for a
`u32` argument. -/
def SPI_FLASH_PROTO_CMD_TO_PROTO (cmd : Nat) : Nat :=
  ((cmd <<< SPI_FLASH_PROTO_CMD_OFF) % 2 ^ 32) &&& SPI_FLASH_PROTO_CMD_MASK

/-- The macro `((((u32)(proto)) & SPI_FLASH_PROTO_CMD_MASK) >> SPI_FLASH_PROTO_CMD_OFF)`. -/
def SPI_FLASH_PROTO_CMD_FROM_PROTO (proto : Nat) : Nat :=
  ((proto % 2 ^ 32) &&& SPI_FLASH_PROTO_CMD_MASK) >>> SPI_FLASH_PROTO_CMD_OFF

def SPI_FLASH_PROTO_ADR_OFF : Nat := 4
def SPI_FLASH_PROTO_ADR_MASK : Nat := GENMASK 7 4

/-- The macro `(((adr) << SPI_FLASH_PROTO_ADR_OFF) & SPI_FLASH_PROTO_ADR_MASK)`, for a
`u32` argument. -/
def SPI_FLASH_PROTO_ADR_TO_PROTO (adr : Nat) : Nat :=
  ((adr <<< SPI_FLASH_PROTO_ADR_OFF) % 2 ^ 32) &&& SPI_FLASH_PROTO_ADR_MASK

/-- The macro `((((u32)(proto)) & SPI_FLASH_PROTO_ADR_MASK) >> SPI_FLASH_PROTO_ADR_OFF)`. -/
def SPI_FLASH_PROTO_ADR_FROM_PROTO (proto : Nat) : Nat :=
  ((proto % 2 ^ 32) &&& SPI_FLASH_PROTO_ADR_MASK) >>> SPI_FLASH_PROTO_ADR_OFF

def SPI_FLASH_PROTO_DAT_OFF : Nat := 0
def SPI_FLASH_PROTO_DAT_MASK : Nat := GENMASK 3 0

/-- The macro `(((dat) << SPI_FLASH_PROTO_DAT_OFF) & SPI_FLASH_PROTO_DAT_MASK)`, for a
`u32` argument. -/
def SPI_FLASH_PROTO_DAT_TO_PROTO (dat : Nat) : Nat :=
  ((dat <<< SPI_FLASH_PROTO_DAT_OFF) % 2 ^ 32) &&& SPI_FLASH_PROTO_DAT_MASK

/-- The macro `((((u32)(proto)) & SPI_FLASH_PROTO_DAT_MASK) >> SPI_FLASH_PROTO_DAT_OFF)`. -/
def SPI_FLASH_PROTO_DAT_FROM_PROTO (proto : Nat) : Nat :=
  ((proto % 2 ^ 32) &&& SPI_FLASH_PROTO_DAT_MASK) >>> SPI_FLASH_PROTO_DAT_OFF

/-- The composing macro: the bitwise OR of the three shifted and masked
lane counts. -/
def SPI_FLASH_PROTO (cmd adr dat : Nat) : Nat :=
  SPI_FLASH_PROTO_CMD_TO_PROTO cmd |||
  SPI_FLASH_PROTO_ADR_TO_PROTO adr |||
  SPI_FLASH_PROTO_DAT_TO_PROTO dat

/-- The enumerators of `enum spi_flash_protocol`, in declaration order. -/
inductive spi_flash_protocol where
  | SPI_FLASH_PROTO_1_1_1
  | SPI_FLASH_PROTO_1_1_2
  | SPI_FLASH_PROTO_1_1_4
  | SPI_FLASH_PROTO_1_2_2
  | SPI_FLASH_PROTO_1_4_4
  | SPI_FLASH_PROTO_2_2_2
  | SPI_FLASH_PROTO_4_4_4
  deriving DecidableEq, Repr

/-- The integer value the header assigns to each enumerator. -/
def spi_flash_protocol.val : spi_flash_protocol → Nat
  | .SPI_FLASH_PROTO_1_1_1 => SPI_FLASH_PROTO 1 1 1
  | .SPI_FLASH_PROTO_1_1_2 => SPI_FLASH_PROTO 1 1 2
  | .SPI_FLASH_PROTO_1_1_4 => SPI_FLASH_PROTO 1 1 4
  | .SPI_FLASH_PROTO_1_2_2 => SPI_FLASH_PROTO 1 2 2
  | .SPI_FLASH_PROTO_1_4_4 => SPI_FLASH_PROTO 1 4 4
  | .SPI_FLASH_PROTO_2_2_2 => SPI_FLASH_PROTO 2 2 2
  | .SPI_FLASH_PROTO_4_4_4 => SPI_FLASH_PROTO 4 4 4

/-- The three lane counts spelled in an enumerator's identifier
`SPI_FLASH_PROTO_c_a_d`, as the triple `(c, a, d)`. -/
def spi_flash_protocol.named_lanes : spi_flash_protocol → Nat × Nat × Nat
  | .SPI_FLASH_PROTO_1_1_1 => (1, 1, 1)
  | .SPI_FLASH_PROTO_1_1_2 => (1, 1, 2)
  | .SPI_FLASH_PROTO_1_1_4 => (1, 1, 4)
  | .SPI_FLASH_PROTO_1_2_2 => (1, 2, 2)
  | .SPI_FLASH_PROTO_1_4_4 => (1, 4, 4)
  | .SPI_FLASH_PROTO_2_2_2 => (2, 2, 2)
  | .SPI_FLASH_PROTO_4_4_4 => (4, 4, 4)

/-! ## Flash descriptor -/

/-- A data or object pointer (`struct spi_flash *`, `struct udevice *`,
`void *`). -/
abbrev Ptr := Nat

/-- Type of the operations `int (*)(struct spi_flash *flash, u32 ofs, size_t len)`:
`flash_lock`, `flash_unlock`, `flash_is_locked` and `erase`. -/
abbrev RegionFn (σ : Type) := Ptr → Nat → Nat → σ → Int × σ

/-- Type of the operations
`int (*)(struct spi_flash *flash, <u8 opcode | u32 offset>, size_t len, void *buf)`:
`read_reg`, `write_reg`, `read` and `write`. -/
abbrev BufFn (σ : Type) := Ptr → Nat → Nat → Ptr → σ → Int × σ

/-- The record `struct spi_flash`.  The header compiles `dev` in only under
`CONFIG_DM_SPI_FLASH`, the three bank fields only under `CONFIG_SPI_FLASH_BAR`
and the last five operations only without `CONFIG_DM_SPI_FLASH`; the record
has all of them, and each facade reads only the fields of its own build. -/
structure spi_flash (σ : Type) where
  spi : Ptr
  dev : Ptr
  name : Ptr
  dual_flash : Nat
  shift : Nat
  flags : Nat
  size : Nat
  page_size : Nat
  sector_size : Nat
  erase_size : Nat
  addr_width : Nat
  bank_read_cmd : Nat
  bank_write_cmd : Nat
  bank_curr : Nat
  erase_cmd : Nat
  read_cmd : Nat
  write_cmd : Nat
  dummy_byte : Nat
  reg_proto : spi_flash_protocol
  read_proto : spi_flash_protocol
  write_proto : spi_flash_protocol
  erase_proto : spi_flash_protocol
  memory_map : Ptr
  flash_lock : Option (RegionFn σ)
  flash_unlock : Option (RegionFn σ)
  flash_is_locked : Option (RegionFn σ)
  read_reg : Option (BufFn σ)
  write_reg : Option (BufFn σ)
  read : Option (BufFn σ)
  write : Option (BufFn σ)
  erase : Option (RegionFn σ)

/-- How a `struct spi_flash *` is dereferenced: `load s flash` is the record
found at address `flash` in machine state `s`. -/
abbrev Load (σ : Type) := σ → Ptr → spi_flash σ

/-- The call `fp(flash, ofs, len)` through a function pointer `fp`. -/
def call_region {σ : Type} (fp : Option (RegionFn σ)) (flash : Ptr) (ofs len : Nat)
    (s : σ) : Option (Int × σ) :=
  match fp with
  | none => none
  | some f => some (f flash ofs len s)

/-- The call `fp(flash, a, len, buf)` through a function pointer `fp`. -/
def call_buf {σ : Type} (fp : Option (BufFn σ)) (flash : Ptr) (a len : Nat) (buf : Ptr)
    (s : σ) : Option (Int × σ) :=
  match fp with
  | none => none
  | some f => some (f flash a len buf s)

/-- The five functions `spi_flash_read_reg_dm`, `spi_flash_write_reg_dm`,
`spi_flash_read_dm`, `spi_flash_write_dm` and `spi_flash_erase_dm`, which
the header declares and does not define: they are parameters of the
driver-model facade.  Each takes the device handle first. -/
structure dm_functions (σ : Type) where
  spi_flash_read_reg_dm : Ptr → Nat → Nat → Ptr → σ → Int × σ
  spi_flash_write_reg_dm : Ptr → Nat → Nat → Ptr → σ → Int × σ
  spi_flash_read_dm : Ptr → Nat → Nat → Ptr → σ → Int × σ
  spi_flash_write_dm : Ptr → Nat → Nat → Ptr → σ → Int × σ
  spi_flash_erase_dm : Ptr → Nat → Nat → σ → Int × σ

/-! ## Facade under `CONFIG_DM_SPI_FLASH` -/

namespace DM

def spi_flash_read_reg {σ : Type} (dm : dm_functions σ) (load : Load σ)
    (flash : Ptr) (opcode len : Nat) (buf : Ptr) (s : σ) : Int × σ :=
  dm.spi_flash_read_reg_dm (load s flash).dev opcode len buf s

def spi_flash_write_reg {σ : Type} (dm : dm_functions σ) (load : Load σ)
    (flash : Ptr) (opcode len : Nat) (buf : Ptr) (s : σ) : Int × σ :=
  dm.spi_flash_write_reg_dm (load s flash).dev opcode len buf s

def spi_flash_read {σ : Type} (dm : dm_functions σ) (load : Load σ)
    (flash : Ptr) (offset len : Nat) (buf : Ptr) (s : σ) : Int × σ :=
  dm.spi_flash_read_dm (load s flash).dev offset len buf s

def spi_flash_write {σ : Type} (dm : dm_functions σ) (load : Load σ)
    (flash : Ptr) (offset len : Nat) (buf : Ptr) (s : σ) : Int × σ :=
  dm.spi_flash_write_dm (load s flash).dev offset len buf s

def spi_flash_erase {σ : Type} (dm : dm_functions σ) (load : Load σ)
    (flash : Ptr) (offset len : Nat) (s : σ) : Int × σ :=
  dm.spi_flash_erase_dm (load s flash).dev offset len s

end DM

/-! ## Facade without `CONFIG_DM_SPI_FLASH` -/

namespace Legacy

def spi_flash_read_reg {σ : Type} (load : Load σ)
    (flash : Ptr) (opcode len : Nat) (buf : Ptr) (s : σ) : Option (Int × σ) :=
  call_buf (load s flash).read_reg flash opcode len buf s

def spi_flash_write_reg {σ : Type} (load : Load σ)
    (flash : Ptr) (opcode len : Nat) (buf : Ptr) (s : σ) : Option (Int × σ) :=
  call_buf (load s flash).write_reg flash opcode len buf s

def spi_flash_read {σ : Type} (load : Load σ)
    (flash : Ptr) (offset len : Nat) (buf : Ptr) (s : σ) : Option (Int × σ) :=
  call_buf (load s flash).read flash offset len buf s

def spi_flash_write {σ : Type} (load : Load σ)
    (flash : Ptr) (offset len : Nat) (buf : Ptr) (s : σ) : Option (Int × σ) :=
  call_buf (load s flash).write flash offset len buf s

def spi_flash_erase {σ : Type} (load : Load σ)
    (flash : Ptr) (offset len : Nat) (s : σ) : Option (Int × σ) :=
  call_region (load s flash).erase flash offset len s

end Legacy

/-! ## The protect helper (both builds) -/

/-- The helper `spi_flash_protect`; `ofs` and `len` are `u32` values and
`prot` is the C `bool`.  `EOPNOTSUPP` is the error number of that name,
whose definition is in the errno header and not in the sources at hand: it
is a parameter. -/
def spi_flash_protect {σ : Type} (EOPNOTSUPP : Int) (load : Load σ)
    (flash : Ptr) (ofs len : Nat) (prot : Bool) (s : σ) : Option (Int × σ) :=
  if (load s flash).flash_lock.isNone || (load s flash).flash_unlock.isNone then
    some (-EOPNOTSUPP, s)
  else if prot then
    call_region (load s flash).flash_lock flash ofs len s
  else
    call_region (load s flash).flash_unlock flash ofs len s

/-! ## Concrete machines used to instantiate the theorems

The machine state is the log of the calls made through the descriptor, so
that a result shows both what was returned and which operations ran. -/

/-- Names of the operations that can be reached through a descriptor. -/
inductive Callee where
  | flash_lock
  | flash_unlock
  | read_reg
  | write_reg
  | read
  | write
  | erase
  deriving DecidableEq, Repr

/-- One logged call: the operation, its first (pointer) argument, the
opcode or offset, the length and the buffer (0 where there is none). -/
structure Call where
  callee : Callee
  self : Ptr
  arg : Nat
  len : Nat
  buf : Ptr
  deriving DecidableEq, Repr

/-- An operation that logs its call and returns `ret`. -/
def log_region (c : Callee) (ret : Int) : RegionFn (List Call) :=
  fun flash ofs len s => (ret, s ++ [⟨c, flash, ofs, len, 0⟩])

/-- An operation with a buffer that logs its call and returns `ret`. -/
def log_buf (c : Callee) (ret : Int) : BufFn (List Call) :=
  fun flash a len buf s => (ret, s ++ [⟨c, flash, a, len, buf⟩])

/-- A descriptor of a 16 MiB part with every operation bound to a logging
function; `flash_lock` returns 0, `flash_unlock` returns 0. -/
def full_flash : spi_flash (List Call) where
  spi := 0x100
  dev := 0x200
  name := 0x300
  dual_flash := 0
  shift := 0
  flags := 0
  size := 0x1000000
  page_size := 256
  sector_size := 4096
  erase_size := 4096
  addr_width := 3
  bank_read_cmd := 0x16
  bank_write_cmd := 0x17
  bank_curr := 0
  erase_cmd := 0x20
  read_cmd := 0x03
  write_cmd := 0x02
  dummy_byte := 0
  reg_proto := .SPI_FLASH_PROTO_1_1_1
  read_proto := .SPI_FLASH_PROTO_1_1_1
  write_proto := .SPI_FLASH_PROTO_1_1_1
  erase_proto := .SPI_FLASH_PROTO_1_1_1
  memory_map := 0
  flash_lock := some (log_region .flash_lock 0)
  flash_unlock := some (log_region .flash_unlock 0)
  flash_is_locked := some (log_region .flash_lock 0)
  read_reg := some (log_buf .read_reg 0)
  write_reg := some (log_buf .write_reg 0)
  read := some (log_buf .read 0)
  write := some (log_buf .write 0)
  erase := some (log_region .erase 0)

/-- The same descriptor with `flash_lock` null and `flash_unlock` bound. -/
def unlock_only_flash : spi_flash (List Call) :=
  { full_flash with flash_lock := none }

/-- The same descriptor with neither `flash_lock` nor `flash_unlock` bound. -/
def no_lock_flash : spi_flash (List Call) :=
  { full_flash with flash_lock := none, flash_unlock := none }

/-- The same descriptor whose bound `flash_lock` itself answers `-95`. -/
def refusing_flash : spi_flash (List Call) :=
  { full_flash with flash_lock := some (log_region .flash_lock (-95)) }

/-- A memory with `full_flash` at address 0x1000, `unlock_only_flash` at
0x2000, `no_lock_flash` at 0x3000 and `refusing_flash` elsewhere. -/
def demo_load : Load (List Call) :=
  fun _ flash =>
    if flash = 0x1000 then full_flash
    else if flash = 0x2000 then unlock_only_flash
    else if flash = 0x3000 then no_lock_flash
    else refusing_flash

/-- Driver-model functions that run, whatever the device handle, the
operations bound on the descriptor at address 0x1000. -/
def demo_dm : dm_functions (List Call) where
  spi_flash_read_reg_dm := fun _ opcode len buf s => log_buf .read_reg 0 0x1000 opcode len buf s
  spi_flash_write_reg_dm := fun _ opcode len buf s => log_buf .write_reg 0 0x1000 opcode len buf s
  spi_flash_read_dm := fun _ offset len buf s => log_buf .read 0 0x1000 offset len buf s
  spi_flash_write_dm := fun _ offset len buf s => log_buf .write 0 0x1000 offset len buf s
  spi_flash_erase_dm := fun _ offset len s => log_region .erase 0 0x1000 offset len s

/-! ## Arithmetic reading of the masks -/

theorem and_mask_shift (x k w : Nat) :
    x &&& (2 ^ (k + w) - 2 ^ k) = (x / 2 ^ k % 2 ^ w) * 2 ^ k := by
  apply Nat.eq_of_testBit_eq
  intro i
  have hm : 2 ^ (k + w) - 2 ^ k = (2 ^ w - 1) <<< k := by
    rw [Nat.shiftLeft_eq, Nat.sub_mul, Nat.one_mul, Nat.pow_add, Nat.mul_comm]
  rw [hm, ← Nat.shiftLeft_eq, ← Nat.shiftRight_eq_div_pow]
  simp only [Nat.testBit_and, Nat.testBit_shiftLeft, Nat.testBit_two_pow_sub_one,
    Nat.testBit_mod_two_pow, Nat.testBit_shiftRight]
  by_cases h : k ≤ i
  · have : k + (i - k) = i := by omega
    simp [h, this, Bool.and_comm]
  · simp [h]

theorem genmask_cmd : SPI_FLASH_PROTO_CMD_MASK = 2 ^ (8 + 4) - 2 ^ 8 := by decide

theorem genmask_adr : SPI_FLASH_PROTO_ADR_MASK = 2 ^ (4 + 4) - 2 ^ 4 := by decide

theorem genmask_dat : SPI_FLASH_PROTO_DAT_MASK = 2 ^ (0 + 4) - 2 ^ 0 := by decide

theorem cmd_to_proto_eq (cmd : Nat) :
    SPI_FLASH_PROTO_CMD_TO_PROTO cmd = (cmd % 16) * 256 := by
  unfold SPI_FLASH_PROTO_CMD_TO_PROTO
  rw [genmask_cmd, and_mask_shift, SPI_FLASH_PROTO_CMD_OFF, Nat.shiftLeft_eq]
  omega

theorem adr_to_proto_eq (adr : Nat) :
    SPI_FLASH_PROTO_ADR_TO_PROTO adr = (adr % 16) * 16 := by
  unfold SPI_FLASH_PROTO_ADR_TO_PROTO
  rw [genmask_adr, and_mask_shift, SPI_FLASH_PROTO_ADR_OFF, Nat.shiftLeft_eq]
  omega

theorem dat_to_proto_eq (dat : Nat) :
    SPI_FLASH_PROTO_DAT_TO_PROTO dat = dat % 16 := by
  unfold SPI_FLASH_PROTO_DAT_TO_PROTO
  rw [genmask_dat, and_mask_shift, SPI_FLASH_PROTO_DAT_OFF, Nat.shiftLeft_eq]
  omega

theorem cmd_from_proto_eq (proto : Nat) :
    SPI_FLASH_PROTO_CMD_FROM_PROTO proto = proto % 2 ^ 32 / 256 % 16 := by
  unfold SPI_FLASH_PROTO_CMD_FROM_PROTO
  rw [genmask_cmd, and_mask_shift, SPI_FLASH_PROTO_CMD_OFF, Nat.shiftRight_eq_div_pow]
  omega

theorem adr_from_proto_eq (proto : Nat) :
    SPI_FLASH_PROTO_ADR_FROM_PROTO proto = proto % 2 ^ 32 / 16 % 16 := by
  unfold SPI_FLASH_PROTO_ADR_FROM_PROTO
  rw [genmask_adr, and_mask_shift, SPI_FLASH_PROTO_ADR_OFF, Nat.shiftRight_eq_div_pow]
  omega

theorem dat_from_proto_eq (proto : Nat) :
    SPI_FLASH_PROTO_DAT_FROM_PROTO proto = proto % 2 ^ 32 % 16 := by
  unfold SPI_FLASH_PROTO_DAT_FROM_PROTO
  rw [genmask_dat, and_mask_shift, SPI_FLASH_PROTO_DAT_OFF, Nat.shiftRight_eq_div_pow]
  omega

/-- The bitwise OR of three nibbles in disjoint positions is their sum. -/
theorem or_nibbles (a b c : Nat) (hb : b < 16) (hc : c < 16) :
    a * 256 ||| b * 16 ||| c = a * 256 + b * 16 + c := by
  have h1 : a * 256 ||| b * 16 = 2 ^ 4 * (a * 16 + b) := by
    have h := Nat.mul_add_lt_is_or (show b * 16 < 2 ^ 8 by omega) a
    rw [← Nat.mul_comm a, show (2 : Nat) ^ 8 = 256 by norm_num] at h
    rw [← h]
    omega
  rw [h1, ← Nat.mul_add_lt_is_or (show c < 2 ^ 4 by omega)]
  omega

/-- The composed encoding as a number: `256 * (cmd % 16) + 16 * (adr % 16) +
dat % 16`. -/
theorem proto_eq (cmd adr dat : Nat) :
    SPI_FLASH_PROTO cmd adr dat = (cmd % 16) * 256 + (adr % 16) * 16 + dat % 16 := by
  unfold SPI_FLASH_PROTO
  rw [cmd_to_proto_eq, adr_to_proto_eq, dat_to_proto_eq]
  exact or_nibbles _ _ _ (Nat.mod_lt _ (by decide)) (Nat.mod_lt _ (by decide))

theorem cmd_from_proto_compose (cmd adr dat : Nat) :
    SPI_FLASH_PROTO_CMD_FROM_PROTO (SPI_FLASH_PROTO cmd adr dat) = cmd % 16 := by
  rw [cmd_from_proto_eq, proto_eq]
  omega

theorem adr_from_proto_compose (cmd adr dat : Nat) :
    SPI_FLASH_PROTO_ADR_FROM_PROTO (SPI_FLASH_PROTO cmd adr dat) = adr % 16 := by
  rw [adr_from_proto_eq, proto_eq]
  omega

theorem dat_from_proto_compose (cmd adr dat : Nat) :
    SPI_FLASH_PROTO_DAT_FROM_PROTO (SPI_FLASH_PROTO cmd adr dat) = dat % 16 := by
  rw [dat_from_proto_eq, proto_eq]
  omega

/-! ## Protocol encoding: properties -/

/-- Claim C1: for every triple `(cmd, adr, dat)` with each component in
{1, 2, 4}, the three projections of `SPI_FLASH_PROTO(cmd, adr, dat)` give
`cmd`, `adr` and `dat` back. -/
theorem proto_project_compose (cmd adr dat : Nat)
    (hc : cmd = 1 ∨ cmd = 2 ∨ cmd = 4)
    (ha : adr = 1 ∨ adr = 2 ∨ adr = 4)
    (hd : dat = 1 ∨ dat = 2 ∨ dat = 4) :
    SPI_FLASH_PROTO_CMD_FROM_PROTO (SPI_FLASH_PROTO cmd adr dat) = cmd ∧
    SPI_FLASH_PROTO_ADR_FROM_PROTO (SPI_FLASH_PROTO cmd adr dat) = adr ∧
    SPI_FLASH_PROTO_DAT_FROM_PROTO (SPI_FLASH_PROTO cmd adr dat) = dat := by
  rw [cmd_from_proto_compose, adr_from_proto_compose, dat_from_proto_compose]
  omega

/-- Instance of `proto_project_compose` at the Quad Output triple (1, 1, 4). -/
theorem proto_project_compose_witness :
    SPI_FLASH_PROTO_CMD_FROM_PROTO (SPI_FLASH_PROTO 1 1 4) = 1 ∧
    SPI_FLASH_PROTO_ADR_FROM_PROTO (SPI_FLASH_PROTO 1 1 4) = 1 ∧
    SPI_FLASH_PROTO_DAT_FROM_PROTO (SPI_FLASH_PROTO 1 1 4) = 4 :=
  proto_project_compose 1 1 4 (by decide) (by decide) (by decide)

/-- Claim C2: for each of the seven enumerators `p` of
`enum spi_flash_protocol`, composing the three projections of its value
gives that value back. -/
theorem proto_compose_project (p : spi_flash_protocol) :
    SPI_FLASH_PROTO (SPI_FLASH_PROTO_CMD_FROM_PROTO p.val)
      (SPI_FLASH_PROTO_ADR_FROM_PROTO p.val)
      (SPI_FLASH_PROTO_DAT_FROM_PROTO p.val) = p.val := by
  cases p <;> decide

/-- Claim C5: the enumerator `SPI_FLASH_PROTO_c_a_d` has the value
`256 * c + 16 * a + d`, a 12-bit number with `c` in bits [11:8], `a` in bits
[7:4] and `d` in bits [3:0]; its command, address and data projections are
`c`, `a` and `d`, each of them 1, 2 or 4; and 1-1-1, 1-1-4 and 4-4-4 are
0x111, 0x114 and 0x444. -/
theorem proto_enum_values :
    (∀ p : spi_flash_protocol,
      p.val = 256 * p.named_lanes.1 + 16 * p.named_lanes.2.1 + p.named_lanes.2.2 ∧
      p.val < 2 ^ 12 ∧
      p.val / 2 ^ 8 % 2 ^ 4 = p.named_lanes.1 ∧
      p.val / 2 ^ 4 % 2 ^ 4 = p.named_lanes.2.1 ∧
      p.val % 2 ^ 4 = p.named_lanes.2.2 ∧
      SPI_FLASH_PROTO_CMD_FROM_PROTO p.val = p.named_lanes.1 ∧
      SPI_FLASH_PROTO_ADR_FROM_PROTO p.val = p.named_lanes.2.1 ∧
      SPI_FLASH_PROTO_DAT_FROM_PROTO p.val = p.named_lanes.2.2 ∧
      (SPI_FLASH_PROTO_CMD_FROM_PROTO p.val = 1 ∨ SPI_FLASH_PROTO_CMD_FROM_PROTO p.val = 2 ∨
        SPI_FLASH_PROTO_CMD_FROM_PROTO p.val = 4) ∧
      (SPI_FLASH_PROTO_ADR_FROM_PROTO p.val = 1 ∨ SPI_FLASH_PROTO_ADR_FROM_PROTO p.val = 2 ∨
        SPI_FLASH_PROTO_ADR_FROM_PROTO p.val = 4) ∧
      (SPI_FLASH_PROTO_DAT_FROM_PROTO p.val = 1 ∨ SPI_FLASH_PROTO_DAT_FROM_PROTO p.val = 2 ∨
        SPI_FLASH_PROTO_DAT_FROM_PROTO p.val = 4)) ∧
    spi_flash_protocol.SPI_FLASH_PROTO_1_1_1.val = 0x111 ∧
    spi_flash_protocol.SPI_FLASH_PROTO_1_1_2.val = 0x112 ∧
    spi_flash_protocol.SPI_FLASH_PROTO_1_1_4.val = 0x114 ∧
    spi_flash_protocol.SPI_FLASH_PROTO_1_2_2.val = 0x122 ∧
    spi_flash_protocol.SPI_FLASH_PROTO_1_4_4.val = 0x144 ∧
    spi_flash_protocol.SPI_FLASH_PROTO_2_2_2.val = 0x222 ∧
    spi_flash_protocol.SPI_FLASH_PROTO_4_4_4.val = 0x444 := by
  refine ⟨fun p => ?_, by decide, by decide, by decide, by decide, by decide, by decide,
    by decide⟩
  cases p <;> decide

/-- Claim C6: the encoding is positional.  The command projection of
`SPI_FLASH_PROTO(cmd, adr, dat)` is the same whatever `adr` and `dat` are,
the address projection the same whatever `cmd` and `dat` are, and the data
projection the same whatever `cmd` and `adr` are (for all `u32` arguments,
and in fact for all natural numbers). -/
theorem proto_positional (cmd adr dat cmd2 adr2 dat2 : Nat) :
    SPI_FLASH_PROTO_CMD_FROM_PROTO (SPI_FLASH_PROTO cmd adr dat) =
      SPI_FLASH_PROTO_CMD_FROM_PROTO (SPI_FLASH_PROTO cmd adr2 dat2) ∧
    SPI_FLASH_PROTO_ADR_FROM_PROTO (SPI_FLASH_PROTO cmd adr dat) =
      SPI_FLASH_PROTO_ADR_FROM_PROTO (SPI_FLASH_PROTO cmd2 adr dat2) ∧
    SPI_FLASH_PROTO_DAT_FROM_PROTO (SPI_FLASH_PROTO cmd adr dat) =
      SPI_FLASH_PROTO_DAT_FROM_PROTO (SPI_FLASH_PROTO cmd2 adr2 dat) := by
  simp only [cmd_from_proto_compose, adr_from_proto_compose, dat_from_proto_compose,
    and_self]

/-- Claim C10: for all `u32` arguments (valid lane counts or not),
`SPI_FLASH_PROTO(cmd, adr, dat)` is below 4096 and its projections are
`cmd % 16`, `adr % 16` and `dat % 16`.  So the projections give the
arguments back exactly when all three are below 16; the reserved lane
count 8 round-trips; and an argument of 16 or more comes back changed
(reduced modulo 16) while the macro still yields a value. -/
theorem proto_truncates (cmd adr dat : Nat) :
    SPI_FLASH_PROTO cmd adr dat < 4096 ∧
    SPI_FLASH_PROTO_CMD_FROM_PROTO (SPI_FLASH_PROTO cmd adr dat) = cmd % 16 ∧
    SPI_FLASH_PROTO_ADR_FROM_PROTO (SPI_FLASH_PROTO cmd adr dat) = adr % 16 ∧
    SPI_FLASH_PROTO_DAT_FROM_PROTO (SPI_FLASH_PROTO cmd adr dat) = dat % 16 ∧
    ((SPI_FLASH_PROTO_CMD_FROM_PROTO (SPI_FLASH_PROTO cmd adr dat) = cmd ∧
      SPI_FLASH_PROTO_ADR_FROM_PROTO (SPI_FLASH_PROTO cmd adr dat) = adr ∧
      SPI_FLASH_PROTO_DAT_FROM_PROTO (SPI_FLASH_PROTO cmd adr dat) = dat) ↔
      (cmd < 16 ∧ adr < 16 ∧ dat < 16)) ∧
    (SPI_FLASH_PROTO_CMD_FROM_PROTO (SPI_FLASH_PROTO 8 8 8) = 8 ∧
      SPI_FLASH_PROTO_ADR_FROM_PROTO (SPI_FLASH_PROTO 8 8 8) = 8 ∧
      SPI_FLASH_PROTO_DAT_FROM_PROTO (SPI_FLASH_PROTO 8 8 8) = 8) ∧
    (16 ≤ cmd → SPI_FLASH_PROTO_CMD_FROM_PROTO (SPI_FLASH_PROTO cmd adr dat) ≠ cmd) ∧
    (16 ≤ adr → SPI_FLASH_PROTO_ADR_FROM_PROTO (SPI_FLASH_PROTO cmd adr dat) ≠ adr) ∧
    (16 ≤ dat → SPI_FLASH_PROTO_DAT_FROM_PROTO (SPI_FLASH_PROTO cmd adr dat) ≠ dat) := by
  simp only [cmd_from_proto_compose, adr_from_proto_compose, dat_from_proto_compose]
  rw [proto_eq]
  refine ⟨by omega, trivial, trivial, trivial, ⟨fun h => by omega, fun h => by omega⟩,
    by decide, fun h => by omega, fun h => by omega, fun h => by omega⟩

/-- Instance of `proto_truncates` at the lane counts (16, 1, 1): the command
projection of the composed value is 0, not 16. -/
theorem proto_truncates_witness :
    SPI_FLASH_PROTO_CMD_FROM_PROTO (SPI_FLASH_PROTO 16 1 1) ≠ 16 :=
  (proto_truncates 16 1 1).2.2.2.2.2.2.1 (by decide)

/-! ## Facade: helper lemmas -/

theorem protect_of_bound {σ : Type} (EOPNOTSUPP : Int) (load : Load σ)
    (flash : Ptr) (ofs len : Nat) (prot : Bool) (s : σ) (lk ul : RegionFn σ)
    (hl : (load s flash).flash_lock = some lk)
    (hu : (load s flash).flash_unlock = some ul) :
    spi_flash_protect EOPNOTSUPP load flash ofs len prot s =
      some (if prot then lk flash ofs len s else ul flash ofs len s) := by
  unfold spi_flash_protect
  rw [hl, hu]
  cases prot <;> simp [call_region]

theorem protect_of_unbound {σ : Type} (EOPNOTSUPP : Int) (load : Load σ)
    (flash : Ptr) (ofs len : Nat) (prot : Bool) (s : σ)
    (h : (load s flash).flash_lock = none ∨ (load s flash).flash_unlock = none) :
    spi_flash_protect EOPNOTSUPP load flash ofs len prot s = some (-EOPNOTSUPP, s) := by
  unfold spi_flash_protect
  rcases h with h | h <;> simp [h]

/-! ## Facade: properties -/

/-- Claim C3: `spi_flash_protect(flash, ofs, len, prot)` is determined by the
bindings.  With `flash_lock` and `flash_unlock` both bound it returns the
result (status and machine state) of `flash_lock(flash, ofs, len)` when
`prot` is true and of `flash_unlock(flash, ofs, len)` when `prot` is false,
called once on the state at entry with `flash`, `ofs` and `len` unchanged.
With at least one of the two not bound it returns `-EOPNOTSUPP` and leaves
the state as it was.  It never calls through a null pointer. -/
theorem protect_determined {σ : Type} (EOPNOTSUPP : Int) (load : Load σ)
    (flash : Ptr) (ofs len : Nat) (prot : Bool) (s : σ) :
    (∀ lk ul : RegionFn σ,
      (load s flash).flash_lock = some lk → (load s flash).flash_unlock = some ul →
      spi_flash_protect EOPNOTSUPP load flash ofs len prot s =
        some (if prot then lk flash ofs len s else ul flash ofs len s)) ∧
    ((load s flash).flash_lock = none ∨ (load s flash).flash_unlock = none →
      spi_flash_protect EOPNOTSUPP load flash ofs len prot s = some (-EOPNOTSUPP, s)) ∧
    (spi_flash_protect EOPNOTSUPP load flash ofs len prot s).isSome = true := by
  refine ⟨fun lk ul hl hu => protect_of_bound _ _ _ _ _ _ _ lk ul hl hu,
    fun h => protect_of_unbound _ _ _ _ _ _ _ h, ?_⟩
  cases hl : (load s flash).flash_lock with
  | none => rw [protect_of_unbound _ _ _ _ _ _ _ (Or.inl hl)]; rfl
  | some lk =>
    cases hu : (load s flash).flash_unlock with
    | none => rw [protect_of_unbound _ _ _ _ _ _ _ (Or.inr hu)]; rfl
    | some ul => rw [protect_of_bound _ _ _ _ _ _ _ lk ul hl hu]; rfl

/-- Instances of `protect_determined`: `protect(0, 0x1000, true)` on the
descriptor at 0x2000, whose `flash_lock` is null, returns -95 with nothing
logged; on the fully bound descriptor at 0x1000 it runs `flash_lock` once
with the same arguments, and with `prot` false `flash_unlock`. -/
theorem protect_determined_witness :
    spi_flash_protect 95 demo_load 0x2000 0 0x1000 true [] = some (-95, []) ∧
    spi_flash_protect 95 demo_load 0x1000 0 0x1000 true [] =
      some (0, [⟨.flash_lock, 0x1000, 0, 0x1000, 0⟩]) ∧
    spi_flash_protect 95 demo_load 0x1000 0 0x1000 false [] =
      some (0, [⟨.flash_unlock, 0x1000, 0, 0x1000, 0⟩]) :=
  ⟨(protect_determined 95 demo_load 0x2000 0 0x1000 true []).2.1 (Or.inl rfl),
   (protect_determined 95 demo_load 0x1000 0 0x1000 true []).1 _ _ rfl rfl,
   (protect_determined 95 demo_load 0x1000 0 0x1000 false []).1 _ _ rfl rfl⟩

/-- Counterexample to claim C4 as stated: on the descriptor at 0x4000 both
`flash_lock` and `flash_unlock` are bound, and `spi_flash_protect` with
`prot` true still returns -95 (here `EOPNOTSUPP` is 95), because the bound
`flash_lock`, which the log shows was called, returned that code. -/
theorem protect_notsupp_both_bound :
    (demo_load [] 0x4000).flash_lock.isSome = true ∧
    (demo_load [] 0x4000).flash_unlock.isSome = true ∧
    spi_flash_protect 95 demo_load 0x4000 0 0x1000 true [] =
      some (-95, [⟨.flash_lock, 0x4000, 0, 0x1000, 0⟩]) := by
  decide

/-- Claim C4, amended: when `spi_flash_protect` returns `-EOPNOTSUPP`, either
`flash_lock` or `flash_unlock` is not bound (and then no operation ran: the
state is the one at entry), or both are bound and the operation selected by
`prot` itself returned `-EOPNOTSUPP`.  The result of a bound operation is
returned unchanged, so it is reported as not supported only when it is
`-EOPNOTSUPP` itself. -/
theorem protect_notsupp_origin {σ : Type} (EOPNOTSUPP : Int) (load : Load σ)
    (flash : Ptr) (ofs len : Nat) (prot : Bool) (s t : σ)
    (h : spi_flash_protect EOPNOTSUPP load flash ofs len prot s = some (-EOPNOTSUPP, t)) :
    (((load s flash).flash_lock = none ∨ (load s flash).flash_unlock = none) ∧ t = s) ∨
    (∃ lk ul : RegionFn σ,
      (load s flash).flash_lock = some lk ∧ (load s flash).flash_unlock = some ul ∧
      (if prot then lk flash ofs len s else ul flash ofs len s) = (-EOPNOTSUPP, t)) := by
  cases hl : (load s flash).flash_lock with
  | none =>
    rw [protect_of_unbound _ _ _ _ _ _ _ (Or.inl hl)] at h
    left
    refine ⟨Or.inl rfl, ?_⟩
    have h2 := Option.some.inj h
    exact (congrArg Prod.snd h2).symm
  | some lk =>
    cases hu : (load s flash).flash_unlock with
    | none =>
      rw [protect_of_unbound _ _ _ _ _ _ _ (Or.inr hu)] at h
      left
      refine ⟨Or.inr rfl, ?_⟩
      have h2 := Option.some.inj h
      exact (congrArg Prod.snd h2).symm
    | some ul =>
      rw [protect_of_bound _ _ _ _ _ _ _ lk ul hl hu] at h
      right
      exact ⟨lk, ul, rfl, rfl, Option.some.inj h⟩

/-- Instance of `protect_notsupp_origin` at the descriptor at 0x3000, which
binds neither `flash_lock` nor `flash_unlock`. -/
theorem protect_notsupp_origin_witness :
    (((demo_load [] 0x3000).flash_lock = none ∨ (demo_load [] 0x3000).flash_unlock = none) ∧
      ([] : List Call) = []) ∨
    (∃ lk ul : RegionFn (List Call),
      (demo_load [] 0x3000).flash_lock = some lk ∧
      (demo_load [] 0x3000).flash_unlock = some ul ∧
      (if true then lk 0x3000 0 0x1000 [] else ul 0x3000 0 0x1000 []) = (-95, [])) :=
  protect_notsupp_origin 95 demo_load 0x3000 0 0x1000 true [] [] (by decide)

/-- Claim C9: when exactly one of `flash_lock` and `flash_unlock` is bound,
`spi_flash_protect` returns `-EOPNOTSUPP` for `prot` true and for `prot`
false alike, also when the operation asked for is the bound one, and the
machine state it returns is the state at entry: neither operation ran, and
the descriptor read from the state is the same as before. -/
theorem protect_one_bound {σ : Type} (EOPNOTSUPP : Int) (load : Load σ)
    (flash : Ptr) (ofs len : Nat) (s : σ)
    (h : ((load s flash).flash_lock.isSome = true ∧ (load s flash).flash_unlock = none) ∨
      ((load s flash).flash_lock = none ∧ (load s flash).flash_unlock.isSome = true)) :
    ∀ prot : Bool,
      spi_flash_protect EOPNOTSUPP load flash ofs len prot s = some (-EOPNOTSUPP, s) ∧
      ∀ r t, spi_flash_protect EOPNOTSUPP load flash ofs len prot s = some (r, t) →
        r = -EOPNOTSUPP ∧ t = s ∧ load t flash = load s flash := by
  intro prot
  have hu : (load s flash).flash_lock = none ∨ (load s flash).flash_unlock = none := by
    rcases h with h | h
    · exact Or.inr h.2
    · exact Or.inl h.1
  have he := protect_of_unbound EOPNOTSUPP load flash ofs len prot s hu
  refine ⟨he, fun r t hrt => ?_⟩
  rw [he] at hrt
  have h2 := Option.some.inj hrt
  have h3 : r = -EOPNOTSUPP := (congrArg Prod.fst h2).symm
  have h4 : t = s := (congrArg Prod.snd h2).symm
  exact ⟨h3, h4, by rw [h4]⟩

/-- Instance of `protect_one_bound`: the descriptor at 0x2000 binds
`flash_unlock` and not `flash_lock`; asked to unlock (`prot` false) the
helper returns -95 and the call log stays empty. -/
theorem protect_one_bound_witness :
    spi_flash_protect 95 demo_load 0x2000 0 0x1000 false [] = some (-95, []) :=
  (protect_one_bound 95 demo_load 0x2000 0 0x1000 [] (Or.inr ⟨rfl, rfl⟩) false).1

/-- Claim C7: in the legacy build, when the five mandatory operations of the
descriptor are bound, each of `spi_flash_read_reg`, `spi_flash_write_reg`,
`spi_flash_read`, `spi_flash_write` and `spi_flash_erase` returns exactly
what one call of the bound operation of the same name returns on the state
at entry, with the descriptor pointer, the opcode or offset, `len` and `buf`
passed unchanged: the same status and the same machine state afterwards,
nothing checked and nothing else done. -/
theorem legacy_facade_forwards {σ : Type} (load : Load σ) (flash : Ptr) (s : σ)
    (rr wr rd wt : BufFn σ) (er : RegionFn σ)
    (hrr : (load s flash).read_reg = some rr)
    (hwr : (load s flash).write_reg = some wr)
    (hrd : (load s flash).read = some rd)
    (hwt : (load s flash).write = some wt)
    (her : (load s flash).erase = some er)
    (opcode offset len : Nat) (buf : Ptr) :
    Legacy.spi_flash_read_reg load flash opcode len buf s = some (rr flash opcode len buf s) ∧
    Legacy.spi_flash_write_reg load flash opcode len buf s = some (wr flash opcode len buf s) ∧
    Legacy.spi_flash_read load flash offset len buf s = some (rd flash offset len buf s) ∧
    Legacy.spi_flash_write load flash offset len buf s = some (wt flash offset len buf s) ∧
    Legacy.spi_flash_erase load flash offset len s = some (er flash offset len s) := by
  unfold Legacy.spi_flash_read_reg Legacy.spi_flash_write_reg Legacy.spi_flash_read
    Legacy.spi_flash_write Legacy.spi_flash_erase
  rw [hrr, hwr, hrd, hwt, her]
  exact ⟨rfl, rfl, rfl, rfl, rfl⟩

/-- Instance of `legacy_facade_forwards` on the fully bound descriptor at
0x1000, started with an empty call log: after each entry point the log holds
exactly one call, that of the operation of the same name, with the arguments
given. -/
theorem legacy_facade_forwards_witness :
    Legacy.spi_flash_read_reg demo_load 0x1000 0x9f 3 0x8000 [] =
      some (0, [⟨.read_reg, 0x1000, 0x9f, 3, 0x8000⟩]) ∧
    Legacy.spi_flash_write_reg demo_load 0x1000 0x9f 3 0x8000 [] =
      some (0, [⟨.write_reg, 0x1000, 0x9f, 3, 0x8000⟩]) ∧
    Legacy.spi_flash_read demo_load 0x1000 0x800 3 0x8000 [] =
      some (0, [⟨.read, 0x1000, 0x800, 3, 0x8000⟩]) ∧
    Legacy.spi_flash_write demo_load 0x1000 0x800 3 0x8000 [] =
      some (0, [⟨.write, 0x1000, 0x800, 3, 0x8000⟩]) ∧
    Legacy.spi_flash_erase demo_load 0x1000 0x800 3 [] =
      some (0, [⟨.erase, 0x1000, 0x800, 3, 0⟩]) :=
  legacy_facade_forwards demo_load 0x1000 [] _ _ _ _ _ rfl rfl rfl rfl rfl 0x9f 0x800 3 0x8000

/-- Claim C8: the two facades agree.  Let `fd` be a descriptor used by the
driver-model facade and `fl` one used by the legacy facade, on which the
five operations are bound.  If each function `spi_flash_*_dm`, called on
the device handle `fd->dev`, does what the operation bound on `fl` does when
called on `fl`, then for all arguments each driver-model entry point returns
the same status and leaves the same machine state as the legacy entry point
of the same name.  The driver-model entry point reads nothing of its
descriptor other than `dev`: two descriptors with the same device handle
give the same results. -/
theorem dm_legacy_agree {σ : Type} (dm : dm_functions σ) (load : Load σ)
    (fd fl : Ptr) (s : σ) (rr wr rd wt : BufFn σ) (er : RegionFn σ)
    (hrr : (load s fl).read_reg = some rr)
    (hwr : (load s fl).write_reg = some wr)
    (hrd : (load s fl).read = some rd)
    (hwt : (load s fl).write = some wt)
    (her : (load s fl).erase = some er)
    (err : ∀ opcode len buf,
      dm.spi_flash_read_reg_dm (load s fd).dev opcode len buf s = rr fl opcode len buf s)
    (ewr : ∀ opcode len buf,
      dm.spi_flash_write_reg_dm (load s fd).dev opcode len buf s = wr fl opcode len buf s)
    (erd : ∀ offset len buf,
      dm.spi_flash_read_dm (load s fd).dev offset len buf s = rd fl offset len buf s)
    (ewt : ∀ offset len buf,
      dm.spi_flash_write_dm (load s fd).dev offset len buf s = wt fl offset len buf s)
    (eer : ∀ offset len,
      dm.spi_flash_erase_dm (load s fd).dev offset len s = er fl offset len s) :
    (∀ (opcode offset len : Nat) (buf : Ptr),
      Legacy.spi_flash_read_reg load fl opcode len buf s =
        some (DM.spi_flash_read_reg dm load fd opcode len buf s) ∧
      Legacy.spi_flash_write_reg load fl opcode len buf s =
        some (DM.spi_flash_write_reg dm load fd opcode len buf s) ∧
      Legacy.spi_flash_read load fl offset len buf s =
        some (DM.spi_flash_read dm load fd offset len buf s) ∧
      Legacy.spi_flash_write load fl offset len buf s =
        some (DM.spi_flash_write dm load fd offset len buf s) ∧
      Legacy.spi_flash_erase load fl offset len s =
        some (DM.spi_flash_erase dm load fd offset len s)) ∧
    (∀ (fd2 : Ptr), (load s fd2).dev = (load s fd).dev →
      ∀ (opcode offset len : Nat) (buf : Ptr),
      DM.spi_flash_read_reg dm load fd2 opcode len buf s =
        DM.spi_flash_read_reg dm load fd opcode len buf s ∧
      DM.spi_flash_write_reg dm load fd2 opcode len buf s =
        DM.spi_flash_write_reg dm load fd opcode len buf s ∧
      DM.spi_flash_read dm load fd2 offset len buf s =
        DM.spi_flash_read dm load fd offset len buf s ∧
      DM.spi_flash_write dm load fd2 offset len buf s =
        DM.spi_flash_write dm load fd offset len buf s ∧
      DM.spi_flash_erase dm load fd2 offset len s =
        DM.spi_flash_erase dm load fd offset len s) := by
  constructor
  · intro opcode offset len buf
    unfold Legacy.spi_flash_read_reg Legacy.spi_flash_write_reg Legacy.spi_flash_read
      Legacy.spi_flash_write Legacy.spi_flash_erase
    unfold DM.spi_flash_read_reg DM.spi_flash_write_reg DM.spi_flash_read
      DM.spi_flash_write DM.spi_flash_erase
    rw [hrr, hwr, hrd, hwt, her, err, ewr, erd, ewt, eer]
    exact ⟨rfl, rfl, rfl, rfl, rfl⟩
  · intro fd2 hdev opcode offset len buf
    unfold DM.spi_flash_read_reg DM.spi_flash_write_reg DM.spi_flash_read
      DM.spi_flash_write DM.spi_flash_erase
    rw [hdev]
    exact ⟨rfl, rfl, rfl, rfl, rfl⟩

/-- Instance of `dm_legacy_agree`: the driver-model facade on the descriptor
at 0x2000 (device handle 0x200), with driver-model functions that run the
operations bound at 0x1000, against the legacy facade on the descriptor at
0x1000. -/
theorem dm_legacy_agree_witness :
    Legacy.spi_flash_read demo_load 0x1000 0x800 4 0x8000 [] =
      some (DM.spi_flash_read demo_dm demo_load 0x2000 0x800 4 0x8000 []) ∧
    DM.spi_flash_read demo_dm demo_load 0x2000 0x800 4 0x8000 [] =
      (0, [⟨.read, 0x1000, 0x800, 4, 0x8000⟩]) ∧
    Legacy.spi_flash_erase demo_load 0x1000 0x1000 0x2000 [] =
      some (DM.spi_flash_erase demo_dm demo_load 0x2000 0x1000 0x2000 []) :=
  have h := dm_legacy_agree demo_dm demo_load 0x2000 0x1000 [] _ _ _ _ _
    rfl rfl rfl rfl rfl (fun _ _ _ => rfl) (fun _ _ _ => rfl) (fun _ _ _ => rfl)
    (fun _ _ _ => rfl) (fun _ _ => rfl)
  ⟨(h.1 0 0x800 4 0x8000).2.2.1, rfl, (h.1 0 0x1000 0x2000 0).2.2.2.2⟩

end SpiFlash
